import Mathlib

set_option linter.unusedVariables false
set_option linter.unnecessarySimpa false

/-!
Verification of the PDF-Kompressor application core
(`app/pdf_compressor.py`, `app/ghostscript_installer.py`, `app/__main__.py`).

The Python code is shallowly embedded:

* pure helpers (`_map_quality_to_pdfsettings`,
  `_ghostscript_extra_args_for_quality`, `ensure_unique_output_path`,
  `default_output_path_for`) become Lean functions over `String`;
* `os.path` primitives (`basename`, `dirname`, `join`, `splitext`) are
  reimplemented over `List Char` following CPython's `posixpath` source;
* the filesystem is modelled as `FS := String → Option Nat` (existing path to
  file size in bytes); external effects (the Ghostscript subprocess, the
  pikepdf library, the network) are modelled by environment records whose
  fields describe the outcome of each external call, and each effectful
  Python function becomes a total Lean function from an environment and an
  initial filesystem to a result and a final filesystem;
* Python string truthiness (`if gs:`) is modelled explicitly, and Python
  `while True:` loops become fuelled recursions whose fuel is proved
  sufficient.
-/

namespace PdfKompressor

/-! ### Python string primitives (ASCII fragment, from CPython semantics) -/

/-- ASCII lowering of one character, the fragment of `str.lower` the
application relies on (file names compared against `".pdf"`). -/
def pyToLower (c : Char) : Char :=
  if 'A' ≤ c ∧ c ≤ 'Z' then Char.ofNat (c.toNat + 32) else c

/-- `str.lower` on the ASCII fragment. -/
def lowerStr (s : String) : String :=
  (s.data.map pyToLower).asString

/-- `str.endswith`. -/
def strEndsWith (s suffix : String) : Bool :=
  suffix.data == s.data.drop (s.data.length - suffix.data.length)

/-- `str.startswith`. -/
def strStartsWith (s pre : String) : Bool :=
  pre.data == s.data.take pre.data.length

/-- Python whitespace as stripped by `str.strip()`. -/
def pyIsSpace (c : Char) : Bool :=
  c == ' ' || c == '\t' || c == '\n' || c == '\r' || c == '\x0b' || c == '\x0c'

/-- `str.strip()` (no argument): drop whitespace from both ends. -/
def stripStr (s : String) : String :=
  (((s.data.dropWhile pyIsSpace).reverse.dropWhile pyIsSpace).reverse).asString

/-- `str.rfind` for a single character: index of the last occurrence,
`none` playing the role of Python's `-1`. -/
def rfindCharAux (c : Char) : List Char → Nat → Option Nat → Option Nat
  | [], _, acc => acc
  | a :: rest, i, acc => rfindCharAux c rest (i + 1) (if a = c then some i else acc)

def rfindChar (c : Char) (l : List Char) : Option Nat := rfindCharAux c l 0 none

/-! ### `os.path` primitives (CPython `posixpath`) -/

/-- `posixpath.splitext`, on the character list: split at the last `'.'`
provided it lies strictly after the last `'/'` and the base name is not made
of leading dots only (CPython's `genericpath._splitext`). -/
def splitextData (p : List Char) : List Char × List Char :=
  match rfindChar '.' p with
  | none => (p, [])
  | some di =>
    let fi := match rfindChar '/' p with
      | none => 0
      | some si => si + 1
    if fi ≤ di then
      if ((p.drop fi).take (di - fi)).any (fun ch => ch != '.') then
        (p.take di, p.drop di)
      else (p, [])
    else (p, [])

/-- `os.path.splitext`. -/
def splitextStr (p : String) : String × String :=
  ((splitextData p.data).1.asString, (splitextData p.data).2.asString)

/-- `os.path.basename`: everything after the last `'/'`. -/
def basenameStr (p : String) : String :=
  let i := match rfindChar '/' p.data with
    | none => 0
    | some si => si + 1
  (p.data.drop i).asString

/-- `os.path.dirname`: everything before the last `'/'`, with trailing
slashes stripped unless the head is all slashes (CPython `posixpath.dirname`). -/
def dirnameStr (p : String) : String :=
  let i := match rfindChar '/' p.data with
    | none => 0
    | some si => si + 1
  let head := p.data.take i
  if head ≠ [] ∧ head.any (fun ch => ch != '/') = true then
    ((head.reverse.dropWhile (fun ch => ch == '/')).reverse).asString
  else head.asString

/-- `os.path.join` for two components (CPython `posixpath.join`). -/
def joinPath (a b : String) : String :=
  if strStartsWith b "/" then b
  else if a = "" ∨ strEndsWith a "/" = true then a ++ b
  else a ++ "/" ++ b

/-! ### Injectivity of decimal rendering

`ensure_unique_output_path` builds candidate names of the form
root, space, an opening parenthesis, the decimal counter, a closing
parenthesis, then the extension. Termination of its search needs the
decimal renderings of distinct counters to be distinct strings, i.e.
injectivity of `Nat.repr`. -/

/-- Numeric value of a decimal digit character. -/
def digitVal (c : Char) : Nat := c.toNat - 48

/-- Value of a most-significant-first decimal digit string. -/
def digitsVal (l : List Char) : Nat := l.foldl (fun a c => 10 * a + digitVal c) 0

lemma digitVal_digitChar : ∀ m, m < 10 → digitVal (Nat.digitChar m) = m := by decide

lemma toDigitsCore_append (fuel : Nat) : ∀ (n : Nat) (ds : List Char),
    Nat.toDigitsCore 10 fuel n ds = Nat.toDigitsCore 10 fuel n [] ++ ds := by
  induction fuel with
  | zero => intro n ds; simp [Nat.toDigitsCore]
  | succ f ih =>
    intro n ds
    simp only [Nat.toDigitsCore]
    by_cases h : n / 10 = 0
    · simp [h]
    · simp only [h, if_false]
      rw [ih (n / 10) (Nat.digitChar (n % 10) :: ds),
        ih (n / 10) [Nat.digitChar (n % 10)], List.append_assoc]
      rfl

lemma digitsVal_toDigitsCore : ∀ n fuel, n < fuel →
    digitsVal (Nat.toDigitsCore 10 fuel n []) = n := by
  intro n
  induction n using Nat.strong_induction_on with
  | _ n ih =>
    intro fuel hf
    match fuel, hf with
    | fuel + 1, hf =>
      simp only [Nat.toDigitsCore]
      by_cases h : n / 10 = 0
      · have h10 : n < 10 := by omega
        simp only [h, if_true, digitsVal, List.foldl]
        rw [digitVal_digitChar (n % 10) (by omega)]
        omega
      · have hpos : 0 < n := by omega
        have hdivlt : n / 10 < n := Nat.div_lt_self hpos (by norm_num)
        simp only [h, if_false]
        rw [toDigitsCore_append fuel (n / 10) [Nat.digitChar (n % 10)]]
        have hval : digitsVal (Nat.toDigitsCore 10 fuel (n / 10) []) = n / 10 :=
          ih (n / 10) hdivlt fuel (by omega)
        simp only [digitsVal, List.foldl_append, List.foldl] at hval ⊢
        rw [hval, digitVal_digitChar (n % 10) (by omega)]
        omega

lemma natRepr_injective : Function.Injective Nat.repr := by
  intro m n h
  have hd : Nat.toDigits 10 m = Nat.toDigits 10 n := congrArg String.data h
  have hm := digitsVal_toDigitsCore m (m + 1) (Nat.lt_succ_self m)
  have hn := digitsVal_toDigitsCore n (n + 1) (Nat.lt_succ_self n)
  simp only [Nat.toDigits] at hd
  rw [hd, hn] at hm
  exact hm.symm

/-! ### Output Path Resolver (`ensure_unique_output_path`, `default_output_path_for`)

The filesystem seen by `os.path.exists` is modelled as the (finite) list of
existing paths. The Python `while True:` counting loop is embedded as a
fuelled recursion; `ensure_unique_spec` below proves the fuel
`fs.length + 1` is never exhausted, so the fuelled function computes exactly
what the unbounded loop would. -/

/-- The candidate built by the loop body: root, a parenthesised decimal
counter, then the extension. -/
def candidateName (root ext : String) (i : Nat) : String :=
  root ++ " (" ++ Nat.repr i ++ ")" ++ ext

/-- The counting loop of `ensure_unique_output_path`: starting at counter
`i`, return the first candidate not existing according to `ex`. -/
def findFreeName (ex : String → Bool) (root ext : String) : Nat → Nat → String
  | 0, i => candidateName root ext i
  | fuel + 1, i =>
    let c := candidateName root ext i
    if ex c then findFreeName ex root ext fuel (i + 1) else c

/-- `ensure_unique_output_path` from `app/pdf_compressor.py`: return a
non-clobbering path appending `(1)`, `(2)`, ... if needed. -/
def ensure_unique_output_path (fs : List String) (base_path : String) : String :=
  if base_path ∈ fs then
    findFreeName (fun s => decide (s ∈ fs))
      (splitextStr base_path).1 (splitextStr base_path).2 (fs.length + 1) 1
  else base_path

/-- `default_output_path_for` from `app/pdf_compressor.py`. The Python
`output_dir or os.path.dirname(src_path)` uses string truthiness, hence the
explicit empty-string test. -/
def default_output_path_for (fs : List String) (src_path : String)
    (output_dir : Option String) : String :=
  let name := basenameStr src_path
  let stem := (splitextStr name).1
  let target_dir := match output_dir with
    | some d => if d = "" then dirnameStr src_path else d
    | none => dirnameStr src_path
  ensure_unique_output_path fs (joinPath target_dir (stem ++ "-compressed.pdf"))

lemma candidateName_inj (root ext : String) {i j : Nat}
    (h : candidateName root ext i = candidateName root ext j) : i = j := by
  have hd := congrArg String.data h
  simp only [candidateName, String.data_append] at hd
  have h1 := (List.append_left_inj ext.data).mp hd
  have h2 := (List.append_left_inj (String.data ")")).mp h1
  have h3 := (List.append_right_inj (root.data ++ String.data " (")).mp
    (by simpa [List.append_assoc] using h2)
  have hrepr : Nat.toDigits 10 i = Nat.toDigits 10 j := h3
  have hi := digitsVal_toDigitsCore i (i + 1) (Nat.lt_succ_self i)
  have hj := digitsVal_toDigitsCore j (j + 1) (Nat.lt_succ_self j)
  simp only [Nat.toDigits] at hrepr
  rw [hrepr, hj] at hi
  exact hi.symm

/-- Pigeonhole: among the first `fs.length + 1` candidates, at least one
does not occur in the (finite) list of existing files. -/
lemma exists_free_candidate (fs : List String) (root ext : String) :
    ∃ k, 1 ≤ k ∧ k < fs.length + 2 ∧ candidateName root ext k ∉ fs := by
  by_contra hcon
  push_neg at hcon
  have hsub : (Finset.range (fs.length + 1)).image
      (fun i => candidateName root ext (i + 1)) ⊆ fs.toFinset := by
    intro s hs
    rcases Finset.mem_image.mp hs with ⟨i, hi, rfl⟩
    have hi' := Finset.mem_range.mp hi
    exact List.mem_toFinset.mpr (hcon (i + 1) (by omega) (by omega))
  have hinj : Function.Injective (fun i => candidateName root ext (i + 1)) := by
    intro a b hab
    have := candidateName_inj root ext hab
    omega
  have hcard := Finset.card_le_card hsub
  rw [Finset.card_image_of_injective _ hinj, Finset.card_range] at hcard
  have := fs.toFinset_card_le
  omega

/-- Correctness of the counting loop: if some candidate with counter in
`[i, i + fuel)` is free, the loop returns the first free candidate. -/
lemma findFreeName_spec (ex : String → Bool) (root ext : String) :
    ∀ fuel i, (∃ j, i ≤ j ∧ j < i + fuel ∧ ex (candidateName root ext j) = false) →
      ∃ k, i ≤ k ∧ findFreeName ex root ext fuel i = candidateName root ext k ∧
        ex (candidateName root ext k) = false ∧
        ∀ j, i ≤ j → j < k → ex (candidateName root ext j) = true := by
  intro fuel
  induction fuel with
  | zero =>
    rintro i ⟨j, h1, h2, _⟩
    omega
  | succ f ih =>
    rintro i ⟨j, hj1, hj2, hj3⟩
    by_cases hex : ex (candidateName root ext i) = true
    · have hji : j ≠ i := by
        intro h
        rw [h, hex] at hj3
        cases hj3
      obtain ⟨k, hk1, hk2, hk3, hk4⟩ := ih (i + 1) ⟨j, by omega, by omega, hj3⟩
      refine ⟨k, by omega, ?_, hk3, ?_⟩
      · simpa [findFreeName, hex] using hk2
      · intro j' h1 h2
        rcases Nat.eq_or_lt_of_le h1 with h | h
        · rw [← h]; exact hex
        · exact hk4 j' h h2
    · refine ⟨i, le_refl i, ?_, by simpa using hex, fun j' h1 h2 => by omega⟩
      simp [findFreeName, hex]

/-- Full characterisation of `ensure_unique_output_path`: the base path is
returned unchanged when free; otherwise the first free counted candidate is
returned. -/
lemma ensure_unique_spec (fs : List String) (base_path : String) :
    (base_path ∉ fs → ensure_unique_output_path fs base_path = base_path) ∧
    (base_path ∈ fs →
      ∃ k, 1 ≤ k ∧
        ensure_unique_output_path fs base_path =
          candidateName (splitextStr base_path).1 (splitextStr base_path).2 k ∧
        candidateName (splitextStr base_path).1 (splitextStr base_path).2 k ∉ fs ∧
        ∀ j, 1 ≤ j → j < k →
          candidateName (splitextStr base_path).1 (splitextStr base_path).2 j ∈ fs) := by
  constructor
  · intro hfree
    simp [ensure_unique_output_path, hfree]
  · intro hmem
    obtain ⟨k0, hk01, hk02, hk03⟩ :=
      exists_free_candidate fs (splitextStr base_path).1 (splitextStr base_path).2
    obtain ⟨k, hk1, hk2, hk3, hk4⟩ :=
      findFreeName_spec (fun s => decide (s ∈ fs))
        (splitextStr base_path).1 (splitextStr base_path).2 (fs.length + 1) 1
        ⟨k0, hk01, by omega, by simpa using hk03⟩
    refine ⟨k, hk1, ?_, by simpa using hk3, fun j h1 h2 => by simpa using hk4 j h1 h2⟩
    simpa [ensure_unique_output_path, hmem] using hk2

/-- The returned path never names an existing file. -/
lemma ensure_unique_not_mem (fs : List String) (base_path : String) :
    ensure_unique_output_path fs base_path ∉ fs := by
  by_cases hmem : base_path ∈ fs
  · obtain ⟨k, _, heq, hfree, _⟩ := (ensure_unique_spec fs base_path).2 hmem
    rw [heq]
    exact hfree
  · rw [(ensure_unique_spec fs base_path).1 hmem]
    exact hmem

/-! ### Data model (`app/pdf_compressor.py`) -/

/-- `Quality = Literal["extreme", "strong", "balanced", "high"]`. -/
inductive Quality
  | extreme
  | strong
  | balanced
  | high
deriving DecidableEq

/-- `Engine = Literal["auto", "ghostscript", "basic"]`. -/
inductive Engine
  | auto
  | ghostscript
  | basic
deriving DecidableEq

/-- `CompressResult` dataclass. -/
structure CompressResult where
  ok : Bool
  engine : Engine
  input_path : String
  output_path : String
  message : String
deriving DecidableEq

/-- `_map_quality_to_pdfsettings`: the dictionary lookup, total because the
four literals are exactly the constructors of `Quality`. -/
def map_quality_to_pdfsettings : Quality → String
  | .extreme => "screen"
  | .strong => "screen"
  | .balanced => "ebook"
  | .high => "printer"

/-- `_ghostscript_extra_args_for_quality`. -/
def ghostscript_extra_args_for_quality : Quality → List String
  | .extreme =>
    ["-dDownsampleColorImages=true",
     "-dColorImageDownsampleType=/Average",
     "-dColorImageResolution=72",
     "-dDownsampleGrayImages=true",
     "-dGrayImageDownsampleType=/Average",
     "-dGrayImageResolution=72",
     "-dDownsampleMonoImages=true",
     "-dMonoImageDownsampleType=/Subsample",
     "-dMonoImageResolution=150",
     "-dAutoFilterColorImages=false",
     "-dColorImageFilter=/DCTEncode",
     "-dAutoFilterGrayImages=false",
     "-dGrayImageFilter=/DCTEncode",
     "-dJPEGQ=20",
     "-dDetectDuplicateImages=true",
     "-dSubsetFonts=true",
     "-dCompressFonts=true"]
  | .strong =>
    ["-dDownsampleColorImages=true",
     "-dColorImageDownsampleType=/Average",
     "-dColorImageResolution=96",
     "-dDownsampleGrayImages=true",
     "-dGrayImageDownsampleType=/Average",
     "-dGrayImageResolution=96",
     "-dDownsampleMonoImages=true",
     "-dMonoImageDownsampleType=/Subsample",
     "-dMonoImageResolution=180",
     "-dAutoFilterColorImages=false",
     "-dColorImageFilter=/DCTEncode",
     "-dAutoFilterGrayImages=false",
     "-dGrayImageFilter=/DCTEncode",
     "-dJPEGQ=35",
     "-dDetectDuplicateImages=true",
     "-dSubsetFonts=true",
     "-dCompressFonts=true"]
  | .balanced =>
    ["-dDetectDuplicateImages=true",
     "-dSubsetFonts=true",
     "-dCompressFonts=true"]
  | .high =>
    ["-dDetectDuplicateImages=true",
     "-dSubsetFonts=true",
     "-dCompressFonts=true"]

/-- The base `cmd` list built by `compress_with_ghostscript` before the
extra-args splice. -/
def gsBaseCmd (gs_path : String) (quality : Quality) (tmp_out input_path : String) :
    List String :=
  [gs_path,
   "-sDEVICE=pdfwrite",
   "-dCompatibilityLevel=1.4",
   "-dPDFSETTINGS=/" ++ map_quality_to_pdfsettings quality,
   "-dNOPAUSE",
   "-dQUIET",
   "-dBATCH",
   "-sOutputFile=" ++ tmp_out,
   input_path]

/-- The final command after `cmd[5:5] = extra` (splice at index 5). -/
def ghostscriptCmd (gs_path : String) (quality : Quality) (tmp_out input_path : String) :
    List String :=
  (gsBaseCmd gs_path quality tmp_out input_path).take 5 ++
    ghostscript_extra_args_for_quality quality ++
    (gsBaseCmd gs_path quality tmp_out input_path).drop 5

/-! ### Filesystem and external-world model -/

/-- The filesystem: an existing path maps to its size in bytes. -/
def FS := String → Option Nat

/-- `os.path.exists`. -/
def FS.exists? (fs : FS) (p : String) : Bool := (fs p).isSome

/-- Create or overwrite a file of the given size. -/
def FS.set (fs : FS) (p : String) (sz : Nat) : FS :=
  fun q => if q = p then some sz else fs q

/-- `os.remove`. -/
def FS.erase (fs : FS) (p : String) : FS :=
  fun q => if q = p then none else fs q

/-- Python truthiness of an optional string (`if gs:`): `None` and `""` are
falsy. -/
def strTruthy : Option String → Bool
  | none => false
  | some s => !(s == "")

/-- Outcome of the `subprocess.run` call in `compress_with_ghostscript`. -/
inductive ProcOutcome
  | launchError (msg : String)
  | timedOut
  | completed (returncode : Int) (stdout stderr : String)

/-- Outcome of the `tempfile.mkstemp` / `os.close` pair. These two calls
sit OUTSIDE the `try:` block in the source, so when one of them raises the
exception escapes `compress_with_ghostscript` to the caller. `fileCreated`
records whether the temporary file was already on disk when the exception
was raised (`os.close` failing after `mkstemp` created the file). -/
inductive MkstempOutcome
  | ok
  | fail (msg : String) (fileCreated : Bool)
deriving DecidableEq

/-- Outcome of the remove-and-move block
(`if os.path.exists(output_path): os.remove(output_path)` followed by
`shutil.move(tmp_out, output_path)`). The block is NOT atomic:

* `removeFail`: `os.remove(output_path)` raised; nothing was changed;
* `moveFail`: the remove step (taken only when the destination existed)
  succeeded, then `shutil.move` raised — the pre-existing destination is
  gone, and a cross-device move may have left a partial copy of the given
  size at the destination (`partialOut`). -/
inductive MoveOutcome
  | ok
  | removeFail (msg : String)
  | moveFail (msg : String) (partialOut : Option Nat)
deriving DecidableEq

/-- Environment of one `compress_with_ghostscript` call: the locator answer,
the fresh path handed out by `tempfile.mkstemp`, whether the
`mkstemp`/`os.close` pair raises, the behaviour of the external Ghostscript
process (including the state in which it leaves the temporary file), and
the behaviour of the remove-and-move to the destination. -/
structure GsEnv where
  located : Option String
  tmpPath : String
  mkstemp : MkstempOutcome
  outcome : ProcOutcome
  tmpAfter : Option Nat
  move : MoveOutcome

/-- The temp-file state after `subprocess.run` returns control to Python:
`mkstemp` created the (empty) file, then the external process left it in
the state `env.tmpAfter`. -/
def gsTmpState (env : GsEnv) (fs : FS) : FS :=
  match env.tmpAfter with
  | some sz => (fs.set env.tmpPath 0).set env.tmpPath sz
  | none => (fs.set env.tmpPath 0).erase env.tmpPath

/-- The `finally:` block of `compress_with_ghostscript`:
`if os.path.exists(tmp_out): os.remove(tmp_out)`; primitive `os.remove` on
an existing file is modelled as succeeding. -/
def gsFinally (env : GsEnv) (f : FS) : FS :=
  if f.exists? env.tmpPath then f.erase env.tmpPath else f

/-- The body of `compress_with_ghostscript` past a SUCCESSFUL `mkstemp`:
the `subprocess.run`/move sequence with its `try/except/finally`. The
remove-and-move block is modelled step by step (see `MoveOutcome`). -/
def gs_run (env : GsEnv) (fs : FS) (input_path output_path : String)
    (quality : Quality) : CompressResult × FS :=
  let fs2 := gsTmpState env fs
  match env.outcome with
  | .launchError m =>
    (⟨false, .ghostscript, input_path, output_path, "Ghostscript error: " ++ m⟩,
     gsFinally env fs2)
  | .timedOut =>
    (⟨false, .ghostscript, input_path, output_path, "Ghostscript timed out"⟩,
     gsFinally env fs2)
  | .completed rc out err =>
    if rc = 0 ∧ fs2.exists? env.tmpPath = true then
      match env.move with
      | .ok =>
        -- os.remove (if the destination existed) and shutil.move succeeded
        let sz := (fs2 env.tmpPath).getD 0
        let fs3 := (fs2.erase env.tmpPath).set output_path sz
        (⟨true, .ghostscript, input_path, output_path, "Compressed with Ghostscript"⟩,
         gsFinally env fs3)
      | .removeFail m =>
        (⟨false, .ghostscript, input_path, output_path, "Move failed: " ++ m⟩,
         gsFinally env fs2)
      | .moveFail m partialOut =>
        -- the remove step already deleted the pre-existing destination, and a
        -- failed cross-device move may have left a partial copy there
        let fs2' := if fs2.exists? output_path then fs2.erase output_path else fs2
        let fs2'' : FS := match partialOut with
          | some psz => fs2'.set output_path psz
          | none => fs2'
        (⟨false, .ghostscript, input_path, output_path, "Move failed: " ++ m⟩,
         gsFinally env fs2'')
    else
      let msg := if stripStr err ≠ "" then stripStr err
        else if stripStr out ≠ "" then stripStr out
        else "Exited with code " ++ toString rc
      (⟨false, .ghostscript, input_path, output_path, msg⟩, gsFinally env fs2)

/-- The RETURNING paths of `compress_with_ghostscript`: resolve the tool
path (locator when `gs_path is None`), check truthiness and existence, then
run the tool via `gs_run`. This is the function's behaviour whenever the
temp-file creation succeeds; the full embedding, including the path on
which the Python function raises, is `compress_with_ghostscript_py` below,
and `compress_with_ghostscript_py_ok` connects the two. -/
def compress_with_ghostscript (env : GsEnv) (fs : FS)
    (input_path output_path : String) (quality : Quality)
    (gs_path : Option String) : CompressResult × FS :=
  let gsOpt := match gs_path with
    | none => env.located
    | some p => some p
  if strTruthy gsOpt = true ∧ fs.exists? (gsOpt.getD "") = true then
    gs_run env fs input_path output_path quality
  else
    (⟨false, .ghostscript, input_path, output_path, "Ghostscript not found"⟩, fs)

/-- `compress_with_ghostscript` from `app/pdf_compressor.py`, in full: the
`tempfile.mkstemp`/`os.close` pair sits OUTSIDE the `try:` block, so when
it raises the exception escapes to the caller — modelled as `Except.error`
carrying the exception text and the filesystem at the moment of the raise
(the temporary file leaks when `os.close` failed after creation, since no
`finally:` is active yet). -/
def compress_with_ghostscript_py (env : GsEnv) (fs : FS)
    (input_path output_path : String) (quality : Quality)
    (gs_path : Option String) : Except (String × FS) (CompressResult × FS) :=
  let gsOpt := match gs_path with
    | none => env.located
    | some p => some p
  if strTruthy gsOpt = true ∧ fs.exists? (gsOpt.getD "") = true then
    match env.mkstemp with
    | .fail m fileCreated =>
      .error (m, if fileCreated then fs.set env.tmpPath 0 else fs)
    | .ok => .ok (gs_run env fs input_path output_path quality)
  else
    .ok (⟨false, .ghostscript, input_path, output_path, "Ghostscript not found"⟩, fs)

/-- Outcome of the pikepdf library calls in `compress_with_pikepdf`:
the `import`, `pikepdf.open`, or `pdf.save` call may raise; a completed
`save` leaves the output file in the state `written`. -/
inductive PikeOutcome
  | importError (msg : String)
  | openError (msg : String)
  | saveError (msg : String)
  | saved (written : Option Nat)

structure PikeEnv where
  outcome : PikeOutcome

/-- Library operations requested from pikepdf, recorded for the
quality-independence property. -/
inductive LibOp
  | openPdf (path : String)
  | savePdf (path : String) (compress_streams linearize : Bool)
deriving DecidableEq

/-- `compress_with_pikepdf` from `app/pdf_compressor.py`. Returns the
result, the final filesystem, and the list of library operations issued. -/
def compress_with_pikepdf (env : PikeEnv) (fs : FS)
    (input_path output_path : String) (quality : Quality) :
    CompressResult × FS × List LibOp :=
  match env.outcome with
  | .importError m =>
    (⟨false, .basic, input_path, output_path, "pikepdf not available: " ++ m⟩, fs, [])
  | .openError m =>
    (⟨false, .basic, input_path, output_path, "pikepdf error: " ++ m⟩, fs,
     [.openPdf input_path])
  | .saveError m =>
    (⟨false, .basic, input_path, output_path, "pikepdf error: " ++ m⟩, fs,
     [.openPdf input_path, .savePdf output_path true true])
  | .saved written =>
    let fs1 : FS := match written with
      | some sz => fs.set output_path sz
      | none => fs
    if fs1.exists? output_path = true then
      (⟨true, .basic, input_path, output_path, "Compressed with pikepdf"⟩, fs1,
       [.openPdf input_path, .savePdf output_path true true])
    else
      (⟨false, .basic, input_path, output_path, "Unknown error during save"⟩, fs1,
       [.openPdf input_path, .savePdf output_path true true])

/-- Environment of one `auto_compress` call: the locator answer used by the
selector itself, plus the environments of the two backends it may invoke. -/
structure AutoEnv where
  located : Option String
  gsEnv : GsEnv
  pikeEnv : PikeEnv

/-- Which backend was attempted, in order. -/
inductive EngineAttempt
  | precise
  | basic
deriving DecidableEq

/-- `auto_compress` from `app/pdf_compressor.py`, additionally returning the
ordered list of backend attempts. -/
def auto_compress (env : AutoEnv) (fs : FS)
    (input_path output_path : String) (quality : Quality) :
    CompressResult × FS × List EngineAttempt :=
  if strTruthy env.located = true then
    let r1 := compress_with_ghostscript env.gsEnv fs input_path output_path quality
      env.located
    if r1.1.ok then (r1.1, r1.2, [.precise])
    else
      let r2 := compress_with_pikepdf env.pikeEnv r1.2 input_path output_path quality
      (r2.1, r2.2.1, [.precise, .basic])
  else
    let r2 := compress_with_pikepdf env.pikeEnv fs input_path output_path quality
    (r2.1, r2.2.1, [.basic])

/-- `auto_compress` in full: `auto_compress` wraps the Ghostscript call in
no `try:`, so a raise from `compress_with_ghostscript` (temp-file creation
failing) propagates out of `auto_compress` as well.
`auto_compress_py_ok` connects this to `auto_compress`. -/
def auto_compress_py (env : AutoEnv) (fs : FS)
    (input_path output_path : String) (quality : Quality) :
    Except (String × FS) (CompressResult × FS × List EngineAttempt) :=
  if strTruthy env.located = true then
    match compress_with_ghostscript_py env.gsEnv fs input_path output_path quality
        env.located with
    | .error e => .error e
    | .ok r1 =>
      if r1.1.ok then .ok (r1.1, r1.2, [.precise])
      else
        let r2 := compress_with_pikepdf env.pikeEnv r1.2 input_path output_path quality
        .ok (r2.1, r2.2.1, [.precise, .basic])
  else
    let r2 := compress_with_pikepdf env.pikeEnv fs input_path output_path quality
    .ok (r2.1, r2.2.1, [.basic])

/-- Whether the embedded Python call raised instead of returning. -/
def pyRaises : Except (String × FS) (CompressResult × FS) → Bool
  | .error _ => true
  | .ok _ => false

/-- The text of the escaped exception, when one was raised. -/
def raisedMsg : Except (String × FS) (CompressResult × FS) → Option String
  | .error e => some e.1
  | .ok _ => none

/-! ### Tool Installer (`app/ghostscript_installer.py`) -/

/-- Outcome of `_download_to_temp`: `urlopen` may fail before the temporary
file is created (`openFail`), the copy may fail after `mkstemp` created the
file (`midFail`, the function returns `None` but the partial file remains on
disk), or the download completes at the returned path. -/
inductive DownloadOutcome
  | openFail
  | midFail (tmp : String)
  | ok (tmp : String)

/-- Steps of installation activity (network and process-launch), recorded
for the no-activity-when-already-installed property. -/
inductive InstallStep
  | fetchReleaseInfo
  | downloadAsset
  | runInstaller
deriving DecidableEq

/-- Environment of one `ensure_ghostscript_installed` call. -/
structure InstallEnv where
  locate1 : Option String
  fetchUrl : Option String
  download : DownloadOutcome
  runRaises : Bool
  runSilentRC : Int
  runRetryRC : Int
  locate2 : Option String

/-- `_run_installer`: silent attempt, then one interactive retry; any raised
exception yields `False`. -/
def run_installer (env : InstallEnv) : Bool :=
  if env.runRaises then false
  else if env.runSilentRC = 0 then true
  else env.runRetryRC = 0

/-- `ensure_ghostscript_installed` from `app/ghostscript_installer.py`.
Returns the resolved path (or absence), the installation steps performed,
and the list of temporary installer files still on disk on return. -/
def ensure_ghostscript_installed (env : InstallEnv) (auto_install : Bool) :
    Option String × List InstallStep × List String :=
  if strTruthy env.locate1 = true then (env.locate1, [], [])
  else if !auto_install then (none, [], [])
  else
    match env.fetchUrl with
    | none => (none, [.fetchReleaseInfo], [])
    | some url =>
      if url = "" then (none, [.fetchReleaseInfo], [])
      else
        match env.download with
        | .openFail => (none, [.fetchReleaseInfo, .downloadAsset], [])
        | .midFail tmp => (none, [.fetchReleaseInfo, .downloadAsset], [tmp])
        | .ok _tmp =>
          -- try: ok = _run_installer(...) ... finally: os.remove(installer)
          if run_installer env then
            (env.locate2, [.fetchReleaseInfo, .downloadAsset, .runInstaller], [])
          else
            (none, [.fetchReleaseInfo, .downloadAsset, .runInstaller], [])

/-! ### CLI (`app/__main__.py`, `_run_cli`, `--input` given) -/

/-- The world seen by the CLI for one invocation: whether the input path is
a directory, whether it exists, the directory listing, which entries are
regular files, and the success bit of the chosen compressor on each source
path. -/
structure CliWorld where
  isDir : Bool
  pathExists : Bool
  dirListing : List String
  isFile : String → Bool
  compOk : String → Bool

/-- The PDF files selected in folder mode:
`[join(in,f) for f in listdir if f.lower().endswith(".pdf") and isfile(join(in,f))]`. -/
def cliPdfs (w : CliWorld) (in_path : String) : List String :=
  (w.dirListing.filter
    (fun f => strEndsWith (lowerStr f) ".pdf" && w.isFile (joinPath in_path f))).map
    (fun f => joinPath in_path f)

/-- The exit-code logic of `_run_cli` for an invocation with `--input`,
returning the exit code and the list of source files on which compression
was attempted. -/
def run_cli (w : CliWorld) (in_path : String) : Nat × List String :=
  if w.isDir then
    let pdfs := cliPdfs w in_path
    if pdfs = [] then (1, [])
    else if pdfs.all w.compOk then (0, pdfs) else (2, pdfs)
  else
    if !(strEndsWith (lowerStr in_path) ".pdf") || !w.pathExists then (1, [])
    else if w.compOk in_path then (0, [in_path]) else (2, [in_path])

/-! ### Generic helper lemmas -/

lemma string_data_inj {s t : String} (h : s.data = t.data) : s = t := by
  cases s
  cases t
  cases h
  rfl

lemma append_ne_empty_left (a b : String) (h : a.data ≠ []) : a ++ b ≠ "" := by
  intro hc
  apply h
  have hd := congrArg String.data hc
  rw [String.data_append] at hd
  exact (List.append_eq_nil.mp hd).1

/-! ### Claim theorems -/

/-- Flags the spec describes for the `extreme`/`strong` tuning, written from
the spec's words as a function of the colour/gray target DPI, the mono
target DPI and the JPEG quality factor (Average colour/gray downsampling,
Subsample mono downsampling, forced DCTEncode). -/
def specTunedFlags (colorGrayDpi monoDpi jpegq : Nat) : List String :=
  ["-dDownsampleColorImages=true",
   "-dColorImageDownsampleType=/Average",
   "-dColorImageResolution=" ++ Nat.repr colorGrayDpi,
   "-dDownsampleGrayImages=true",
   "-dGrayImageDownsampleType=/Average",
   "-dGrayImageResolution=" ++ Nat.repr colorGrayDpi,
   "-dDownsampleMonoImages=true",
   "-dMonoImageDownsampleType=/Subsample",
   "-dMonoImageResolution=" ++ Nat.repr monoDpi,
   "-dAutoFilterColorImages=false",
   "-dColorImageFilter=/DCTEncode",
   "-dAutoFilterGrayImages=false",
   "-dGrayImageFilter=/DCTEncode",
   "-dJPEGQ=" ++ Nat.repr jpegq]

/-- Duplicate-image detection and font subsetting/compression, appended for
every preset. -/
def specMiscFlags : List String :=
  ["-dDetectDuplicateImages=true",
   "-dSubsetFonts=true",
   "-dCompressFonts=true"]

/-- C2: the Precise backend maps the presets extreme→screen, strong→screen,
balanced→ebook, high→printer (totality over exactly these four presets is
the totality of `map_quality_to_pdfsettings` over the four-constructor
`Quality` type), and appends for `extreme` the Average 72-DPI colour/gray
and Subsample 150-DPI mono downsampling with forced DCTEncode at JPEGQ=20
plus duplicate-image detection and font subsetting/compression, for
`strong` the same shape at 96/180 DPI and JPEGQ=35, and for `balanced` and
`high` only duplicate-image detection and font subsetting/compression. -/
theorem quality_profile_and_tuning_flags :
    (map_quality_to_pdfsettings .extreme = "screen" ∧
     map_quality_to_pdfsettings .strong = "screen" ∧
     map_quality_to_pdfsettings .balanced = "ebook" ∧
     map_quality_to_pdfsettings .high = "printer") ∧
    (ghostscript_extra_args_for_quality .extreme = specTunedFlags 72 150 20 ++ specMiscFlags ∧
     ghostscript_extra_args_for_quality .strong = specTunedFlags 96 180 35 ++ specMiscFlags ∧
     ghostscript_extra_args_for_quality .balanced = specMiscFlags ∧
     ghostscript_extra_args_for_quality .high = specMiscFlags) := by
  decide

/-- C9: the Basic backend ignores the quality preset entirely: for any
fixed environment, filesystem and paths, two calls with different presets
produce the same result, the same final filesystem and the same list of
library operations. -/
theorem pikepdf_quality_independent (env : PikeEnv) (fs : FS)
    (input_path output_path : String) (q1 q2 : Quality) :
    compress_with_pikepdf env fs input_path output_path q1 =
      compress_with_pikepdf env fs input_path output_path q2 := rfl

/-- C1: the `auto` engine locates the tool; when the locator yields a
(truthy) path the Precise backend runs exactly once and its successful
result is returned, while on any Precise failure the Basic backend runs
exactly once on the resulting state and its result is returned even if it
also fails; when no tool path is found only the Basic backend runs. The
recorded attempt trace shows each backend attempted at most once. -/
theorem auto_engine_fallback_policy (env : AutoEnv) (fs : FS) (i o : String)
    (q : Quality) :
    (strTruthy env.located = true →
      ((compress_with_ghostscript env.gsEnv fs i o q env.located).1.ok = true →
        auto_compress env fs i o q =
          ((compress_with_ghostscript env.gsEnv fs i o q env.located).1,
           (compress_with_ghostscript env.gsEnv fs i o q env.located).2,
           [.precise])) ∧
      ((compress_with_ghostscript env.gsEnv fs i o q env.located).1.ok = false →
        auto_compress env fs i o q =
          ((compress_with_pikepdf env.pikeEnv
              (compress_with_ghostscript env.gsEnv fs i o q env.located).2 i o q).1,
           (compress_with_pikepdf env.pikeEnv
              (compress_with_ghostscript env.gsEnv fs i o q env.located).2 i o q).2.1,
           [.precise, .basic]))) ∧
    (strTruthy env.located = false →
      auto_compress env fs i o q =
        ((compress_with_pikepdf env.pikeEnv fs i o q).1,
         (compress_with_pikepdf env.pikeEnv fs i o q).2.1,
         [.basic])) ∧
    ((auto_compress env fs i o q).2.2.count .precise ≤ 1 ∧
     (auto_compress env fs i o q).2.2.count .basic ≤ 1) := by
  refine ⟨?_, ?_, ?_⟩
  · intro hloc
    constructor
    · intro hok
      simp [auto_compress, hloc, hok]
    · intro hfail
      simp [auto_compress, hloc, hfail]
  · intro hloc
    simp [auto_compress, hloc]
  · by_cases hloc : strTruthy env.located = true
    · by_cases hok : (compress_with_ghostscript env.gsEnv fs i o q env.located).1.ok = true
      · simp [auto_compress, hloc, hok, List.count]
      · simp only [Bool.not_eq_true] at hok
        simp [auto_compress, hloc, hok, List.count]
    · simp only [Bool.not_eq_true] at hloc
      simp [auto_compress, hloc, List.count]

/-- Concrete environment for the fallback witness: the locator finds a
tool, Ghostscript exits with code 1, pikepdf succeeds. -/
def autoEnvW : AutoEnv :=
  AutoEnv.mk (some "gs")
    (GsEnv.mk (some "gs") "tmp.pdf" MkstempOutcome.ok
      (ProcOutcome.completed 1 "" "boom") (some 0) MoveOutcome.ok)
    (PikeEnv.mk (PikeOutcome.saved (some 5)))

/-- Filesystem for the witnesses: only the tool binary exists. -/
def fsW : FS := fun p => if p = "gs" then some 1 else none

/-- Witness for C1: with the tool present but failing, `auto` returns
exactly the Basic backend's result with trace `[precise, basic]`. -/
theorem auto_engine_fallback_policy_witness :
    auto_compress autoEnvW fsW "in.pdf" "out.pdf" .balanced =
      ((compress_with_pikepdf autoEnvW.pikeEnv
          (compress_with_ghostscript autoEnvW.gsEnv fsW "in.pdf" "out.pdf" .balanced
            autoEnvW.located).2 "in.pdf" "out.pdf" .balanced).1,
       (compress_with_pikepdf autoEnvW.pikeEnv
          (compress_with_ghostscript autoEnvW.gsEnv fsW "in.pdf" "out.pdf" .balanced
            autoEnvW.located).2 "in.pdf" "out.pdf" .balanced).2.1,
       [.precise, .basic]) :=
  ((auto_engine_fallback_policy autoEnvW fsW "in.pdf" "out.pdf" .balanced).1
    (by decide)).2 (by decide)

/-- Helper: the per-branch error contract of the tool-run stage. -/
lemma gs_run_contract (env : GsEnv) (fs : FS) (i o : String) (q : Quality) :
    ∀ r fsOut, gs_run env fs i o q = (r, fsOut) →
      r.engine = .ghostscript ∧ r.input_path = i ∧ r.output_path = o ∧
      (r.ok = false → r.message ≠ "") := by
  intro r fsOut h
  unfold gs_run at h
  obtain ⟨loc, tmp, mk, outcome, tmpAfter, mv⟩ := env
  cases outcome with
  | launchError m =>
    cases h
    refine ⟨rfl, rfl, rfl, fun _ => ?_⟩
    exact append_ne_empty_left "Ghostscript error: " _ (by decide)
  | timedOut =>
    cases h
    refine ⟨rfl, rfl, rfl, fun _ => ?_⟩
    show ("Ghostscript timed out" : String) ≠ ""
    decide
  | completed rc out err =>
    dsimp only at h
    split at h
    · cases mv with
      | ok =>
        cases h
        exact ⟨rfl, rfl, rfl, fun hcon => by cases hcon⟩
      | removeFail m =>
        cases h
        refine ⟨rfl, rfl, rfl, fun _ => ?_⟩
        exact append_ne_empty_left "Move failed: " _ (by decide)
      | moveFail m partialOut =>
        cases h
        refine ⟨rfl, rfl, rfl, fun _ => ?_⟩
        exact append_ne_empty_left "Move failed: " _ (by decide)
    · cases h
      refine ⟨rfl, rfl, rfl, fun _ => ?_⟩
      by_cases h1 : stripStr err ≠ ""
      · simpa [h1] using h1
      · by_cases h2 : stripStr out ≠ ""
        · simpa [h1, h2] using h2
        · simp only [h1, h2, if_false]
          exact append_ne_empty_left "Exited with code " _ (by decide)

/-- Helper: the per-branch error contract of the Precise backend. -/
lemma gs_result_contract (env : GsEnv) (fs : FS) (i o : String) (q : Quality)
    (gp : Option String) :
    ∀ r fsOut, compress_with_ghostscript env fs i o q gp = (r, fsOut) →
      r.engine = .ghostscript ∧ r.input_path = i ∧ r.output_path = o ∧
      (r.ok = false → r.message ≠ "") := by
  intro r fsOut h
  unfold compress_with_ghostscript at h
  rcases gp with _ | p
  · dsimp only at h
    split at h
    · exact gs_run_contract env fs i o q r fsOut h
    · cases h
      refine ⟨rfl, rfl, rfl, fun _ => ?_⟩
      show ("Ghostscript not found" : String) ≠ ""
      decide
  · dsimp only at h
    split at h
    · exact gs_run_contract env fs i o q r fsOut h
    · cases h
      refine ⟨rfl, rfl, rfl, fun _ => ?_⟩
      show ("Ghostscript not found" : String) ≠ ""
      decide

/-- Helper: the per-branch error contract of the Basic backend. -/
lemma pike_result_contract (env : PikeEnv) (fs : FS) (i o : String) (q : Quality) :
    ∀ r fsOut ops, compress_with_pikepdf env fs i o q = (r, fsOut, ops) →
      r.engine = .basic ∧ r.input_path = i ∧ r.output_path = o ∧
      (r.ok = false → r.message ≠ "") := by
  intro r fsOut ops h
  unfold compress_with_pikepdf at h
  obtain ⟨outcome⟩ := env
  cases outcome with
  | importError m =>
    cases h
    refine ⟨rfl, rfl, rfl, fun _ => ?_⟩
    exact append_ne_empty_left "pikepdf not available: " _ (by decide)
  | openError m =>
    cases h
    refine ⟨rfl, rfl, rfl, fun _ => ?_⟩
    exact append_ne_empty_left "pikepdf error: " _ (by decide)
  | saveError m =>
    cases h
    refine ⟨rfl, rfl, rfl, fun _ => ?_⟩
    exact append_ne_empty_left "pikepdf error: " _ (by decide)
  | saved written =>
    rcases written with _ | sz
    · dsimp only at h
      split at h
      · cases h
        exact ⟨rfl, rfl, rfl, fun hcon => by cases hcon⟩
      · cases h
        refine ⟨rfl, rfl, rfl, fun _ => ?_⟩
        show ("Unknown error during save" : String) ≠ ""
        decide
    · dsimp only at h
      split at h
      · cases h
        exact ⟨rfl, rfl, rfl, fun hcon => by cases hcon⟩
      · cases h
        refine ⟨rfl, rfl, rfl, fun _ => ?_⟩
        show ("Unknown error during save" : String) ≠ ""
        decide

/-- Component form of `gs_result_contract`. -/
lemma gs_fields (env : GsEnv) (fs : FS) (i o : String) (q : Quality)
    (gp : Option String) :
    (compress_with_ghostscript env fs i o q gp).1.engine = .ghostscript ∧
    (compress_with_ghostscript env fs i o q gp).1.input_path = i ∧
    (compress_with_ghostscript env fs i o q gp).1.output_path = o ∧
    ((compress_with_ghostscript env fs i o q gp).1.ok = false →
     (compress_with_ghostscript env fs i o q gp).1.message ≠ "") :=
  gs_result_contract env fs i o q gp (compress_with_ghostscript env fs i o q gp).1
    (compress_with_ghostscript env fs i o q gp).2 rfl

/-- Component form of `pike_result_contract`. -/
lemma pike_fields (env : PikeEnv) (fs : FS) (i o : String) (q : Quality) :
    (compress_with_pikepdf env fs i o q).1.engine = .basic ∧
    (compress_with_pikepdf env fs i o q).1.input_path = i ∧
    (compress_with_pikepdf env fs i o q).1.output_path = o ∧
    ((compress_with_pikepdf env fs i o q).1.ok = false →
     (compress_with_pikepdf env fs i o q).1.message ≠ "") :=
  pike_result_contract env fs i o q (compress_with_pikepdf env fs i o q).1
    (compress_with_pikepdf env fs i o q).2.1
    (compress_with_pikepdf env fs i o q).2.2 rfl

/-- The launch-error path of the run stage. -/
lemma gs_run_launch_eq (env : GsEnv) (fs : FS) (i o : String) (q : Quality) (m : String)
    (h : env.outcome = .launchError m) :
    (gs_run env fs i o q).1 =
      ⟨false, .ghostscript, i, o, "Ghostscript error: " ++ m⟩ := by
  unfold gs_run
  rw [h]

/-- The timeout path of the run stage. -/
lemma gs_run_timeout_eq (env : GsEnv) (fs : FS) (i o : String) (q : Quality)
    (h : env.outcome = .timedOut) :
    (gs_run env fs i o q).1 =
      ⟨false, .ghostscript, i, o, "Ghostscript timed out"⟩ := by
  unfold gs_run
  rw [h]

/-- A completed run with non-zero exit status, or a failed remove-or-move,
reports failure. -/
lemma gs_run_completed_fail (env : GsEnv) (fs : FS) (i o : String) (q : Quality)
    (rc : Int) (out err : String) (h : env.outcome = .completed rc out err)
    (hf : rc ≠ 0 ∨ env.move ≠ MoveOutcome.ok) :
    (gs_run env fs i o q).1.ok = false := by
  unfold gs_run
  rw [h]
  dsimp only
  split
  · rename_i hcond
    rcases hf with hf | hf
    · exact (hf hcond.1).elim
    · cases hmv : env.move with
      | ok => exact (hf hmv).elim
      | removeFail m => rfl
      | moveFail m partialOut => rfl
  · rfl

/-- When the `mkstemp`/`os.close` pair succeeds, the full embedding agrees
with the returning-path function. -/
lemma compress_with_ghostscript_py_ok (env : GsEnv) (fs : FS) (i o : String)
    (q : Quality) (gp : Option String) (h : env.mkstemp = .ok) :
    compress_with_ghostscript_py env fs i o q gp =
      .ok (compress_with_ghostscript env fs i o q gp) := by
  unfold compress_with_ghostscript_py compress_with_ghostscript
  dsimp only
  by_cases hc : strTruthy (match gp with | none => env.located | some p => some p) = true ∧
      fs.exists? ((match gp with | none => env.located | some p => some p).getD "") = true
  · rw [if_pos hc, if_pos hc, h]
  · rw [if_neg hc, if_neg hc]

/-- When the `mkstemp`/`os.close` pair succeeds, `auto_compress` in full
agrees with the result-level dispatcher. -/
lemma auto_compress_py_ok (env : AutoEnv) (fs : FS) (i o : String) (q : Quality)
    (h : env.gsEnv.mkstemp = .ok) :
    auto_compress_py env fs i o q = .ok (auto_compress env fs i o q) := by
  unfold auto_compress_py auto_compress
  by_cases hloc : strTruthy env.located = true
  · rw [if_pos hloc, if_pos hloc,
      compress_with_ghostscript_py_ok env.gsEnv fs i o q env.located h]
    dsimp only
    by_cases hgok : (compress_with_ghostscript env.gsEnv fs i o q env.located).1.ok = true
    · rw [if_pos hgok, if_pos hgok]
    · rw [if_neg hgok, if_neg hgok]
  · rw [if_neg hloc, if_neg hloc]

/-- Environment refuting the never-raise half of C5: the tool is found but
`tempfile.mkstemp` raises (no space, unwritable temp directory, ...) before
the `try:` block has been entered. -/
def gsEnvRaiseW : GsEnv :=
  GsEnv.mk (some "gs") "tmp.pdf" (MkstempOutcome.fail "No space left on device" false)
    (ProcOutcome.completed 0 "" "") (some 0) MoveOutcome.ok

/-- Counterexample to C5 as stated: `tempfile.mkstemp`/`os.close` sit
OUTSIDE the `try:` block of `compress_with_ghostscript`, so at a concrete
world where the tool lookup succeeds and `mkstemp` raises, the Precise
backend raises the exception to the caller instead of returning a
`CompressResult`. -/
theorem gs_mkstemp_raises_counterexample :
    pyRaises (compress_with_ghostscript_py gsEnvRaiseW fsW "in.pdf" "out.pdf" .balanced
      (some "gs")) = true ∧
    raisedMsg (compress_with_ghostscript_py gsEnvRaiseW fsW "in.pdf" "out.pdf" .balanced
      (some "gs")) = some "No space left on device" :=
  ⟨by decide, by decide⟩

/-- C5 (amended): the Basic backend never raises, and the Precise backend
never raises once the temporary file has been created: the only raising
path is a `tempfile.mkstemp`/`os.close` failure after a successful tool
lookup (refuting the original never-raise claim, see
`gs_mkstemp_raises_counterexample`); on it the exception escapes with its
text. Every returning path yields a `CompressResult` recording the backend
and the job's paths, every failure result carries a non-empty error
message, and each enumerated failure class — missing tool, launch error,
timeout, non-zero exit, remove/move failure, missing library, library
exception — produces an `ok = false` result with the corresponding error
text. -/
theorem backends_return_failure_results (genv : GsEnv) (penv : PikeEnv) (fs : FS)
    (i o : String) (q : Quality) (gp : Option String) :
    (∀ r fsOut, compress_with_ghostscript genv fs i o q gp = (r, fsOut) →
       r.engine = .ghostscript ∧ r.input_path = i ∧ r.output_path = o ∧
       (r.ok = false → r.message ≠ "")) ∧
    (∀ r fsOut ops, compress_with_pikepdf penv fs i o q = (r, fsOut, ops) →
       r.engine = .basic ∧ r.input_path = i ∧ r.output_path = o ∧
       (r.ok = false → r.message ≠ "")) ∧
    (genv.mkstemp = .ok →
      compress_with_ghostscript_py genv fs i o q gp =
        .ok (compress_with_ghostscript genv fs i o q gp)) ∧
    (∀ m fileCreated, genv.mkstemp = .fail m fileCreated →
      (strTruthy (match gp with | none => genv.located | some p => some p) = true ∧
       fs.exists? ((match gp with | none => genv.located | some p => some p).getD "")
         = true) →
      compress_with_ghostscript_py genv fs i o q gp =
        .error (m, if fileCreated then fs.set genv.tmpPath 0 else fs)) ∧
    (¬(strTruthy (match gp with | none => genv.located | some p => some p) = true ∧
         fs.exists? ((match gp with | none => genv.located | some p => some p).getD "")
           = true) →
      compress_with_ghostscript_py genv fs i o q gp =
        .ok (⟨false, .ghostscript, i, o, "Ghostscript not found"⟩, fs) ∧
      compress_with_ghostscript genv fs i o q gp =
        (⟨false, .ghostscript, i, o, "Ghostscript not found"⟩, fs)) ∧
    (∀ m, genv.outcome = .launchError m →
      (gs_run genv fs i o q).1 =
        ⟨false, .ghostscript, i, o, "Ghostscript error: " ++ m⟩) ∧
    (genv.outcome = .timedOut →
      (gs_run genv fs i o q).1 =
        ⟨false, .ghostscript, i, o, "Ghostscript timed out"⟩) ∧
    (∀ rc out err, genv.outcome = .completed rc out err →
      (rc ≠ 0 ∨ genv.move ≠ MoveOutcome.ok) → (gs_run genv fs i o q).1.ok = false) ∧
    (∀ m, penv.outcome = .importError m →
      (compress_with_pikepdf penv fs i o q).1 =
        ⟨false, .basic, i, o, "pikepdf not available: " ++ m⟩) ∧
    (∀ m, penv.outcome = .openError m →
      (compress_with_pikepdf penv fs i o q).1 =
        ⟨false, .basic, i, o, "pikepdf error: " ++ m⟩) ∧
    (∀ m, penv.outcome = .saveError m →
      (compress_with_pikepdf penv fs i o q).1 =
        ⟨false, .basic, i, o, "pikepdf error: " ++ m⟩) := by
  refine ⟨gs_result_contract genv fs i o q gp, pike_result_contract penv fs i o q,
    compress_with_ghostscript_py_ok genv fs i o q gp,
    ?_, ?_, gs_run_launch_eq genv fs i o q, gs_run_timeout_eq genv fs i o q,
    fun rc out err h hf => gs_run_completed_fail genv fs i o q rc out err h hf,
    ?_, ?_, ?_⟩
  · intro m fileCreated hmk hc
    unfold compress_with_ghostscript_py
    dsimp only
    rw [if_pos hc, hmk]
  · intro hno
    constructor
    · unfold compress_with_ghostscript_py
      dsimp only
      rw [if_neg hno]
    · unfold compress_with_ghostscript
      rw [if_neg hno]
  · intro m h
    unfold compress_with_pikepdf
    rw [h]
  · intro m h
    unfold compress_with_pikepdf
    rw [h]
  · intro m h
    unfold compress_with_pikepdf
    rw [h]

/-- Environment for the C5 witness: Ghostscript missing, pikepdf import
fails. -/
def gsEnvMissingW : GsEnv :=
  GsEnv.mk none "tmp.pdf" MkstempOutcome.ok (ProcOutcome.completed 0 "" "") (some 0)
    MoveOutcome.ok

def pikeEnvFailW : PikeEnv := PikeEnv.mk (PikeOutcome.importError "No module named pikepdf")

/-- Witness for C5 (amended): at a concrete world where the tool is absent
and the library import fails, both backends return failed results with
non-empty messages; and at the concrete raising world, the escaped
exception carries the `mkstemp` error text. -/
theorem backends_return_failure_results_witness :
    (compress_with_ghostscript gsEnvMissingW fsW "in.pdf" "out.pdf" .balanced none).1.message ≠ "" ∧
    (compress_with_pikepdf pikeEnvFailW fsW "in.pdf" "out.pdf" .balanced).1.message ≠ "" ∧
    compress_with_ghostscript_py gsEnvRaiseW fsW "in.pdf" "out.pdf" .balanced (some "gs") =
      .error ("No space left on device", fsW) :=
  ⟨((backends_return_failure_results gsEnvMissingW pikeEnvFailW fsW "in.pdf" "out.pdf"
      .balanced none).1 _ _ rfl).2.2.2 (by decide),
   ((backends_return_failure_results gsEnvMissingW pikeEnvFailW fsW "in.pdf" "out.pdf"
      .balanced none).2.1 _ _ _ rfl).2.2.2 (by decide),
   (backends_return_failure_results gsEnvRaiseW pikeEnvFailW fsW "in.pdf" "out.pdf"
      .balanced (some "gs")).2.2.2.1 "No space left on device" false rfl
     ⟨by decide, by decide⟩⟩

/-- After the `finally:` block the temporary file never exists. -/
lemma gsFinally_tmp_none (env : GsEnv) (f : FS) : gsFinally env f env.tmpPath = none := by
  unfold gsFinally FS.exists? FS.erase
  by_cases hex : (f env.tmpPath).isSome = true
  · simp [hex]
  · simp only [hex, if_false]
    exact Option.not_isSome_iff_eq_none.mp (by simpa using hex)

/-- The `finally:` block touches no path other than the temporary file. -/
lemma gsFinally_other (env : GsEnv) (f : FS) (p : String) (hp : p ≠ env.tmpPath) :
    gsFinally env f p = f p := by
  unfold gsFinally FS.erase
  split <;> simp [hp]

/-- `mkstemp` plus the tool run touch no path other than the temporary
file. -/
lemma gsTmpState_other (env : GsEnv) (fs : FS) (p : String) (hp : p ≠ env.tmpPath) :
    gsTmpState env fs p = fs p := by
  unfold gsTmpState FS.set FS.erase
  cases env.tmpAfter <;> simp [hp]

/-- The output-file flag in the built command names the temporary path. -/
lemma outputFlag_in_cmd (gsp : String) (q : Quality) (tmp i : String) :
    ("-sOutputFile=" ++ tmp) ∈ ghostscriptCmd gsp q tmp i := by
  unfold ghostscriptCmd gsBaseCmd
  cases q <;> simp

lemma outputFlag_ne (tmp o : String) (hne : tmp ≠ o) :
    ("-sOutputFile=" ++ tmp) ≠ ("-sOutputFile=" ++ o) := by
  intro hc
  apply hne
  apply string_data_inj
  have hd := congrArg String.data hc
  rw [String.data_append, String.data_append] at hd
  exact (List.append_right_inj _).mp hd

/-- Helper for C6: on every returning path of the run stage — success,
non-zero exit, missing output, timeout, launch error, remove failure, move
failure — the temporary file no longer exists. -/
lemma gs_run_cleanup (env : GsEnv) (fs : FS) (i o : String) (q : Quality) :
    ∀ r fsOut, gs_run env fs i o q = (r, fsOut) → fsOut env.tmpPath = none := by
  intro r fsOut h
  unfold gs_run at h
  obtain ⟨loc, tmp, mk, outcome, tmpAfter, mv⟩ := env
  cases outcome with
  | launchError m =>
    cases h
    exact gsFinally_tmp_none _ _
  | timedOut =>
    cases h
    exact gsFinally_tmp_none _ _
  | completed rc out err =>
    dsimp only at h
    split at h
    · cases mv with
      | ok =>
        cases h
        exact gsFinally_tmp_none _ _
      | removeFail m =>
        cases h
        exact gsFinally_tmp_none _ _
      | moveFail m partialOut =>
        cases h
        exact gsFinally_tmp_none _ _
    · cases h
      exact gsFinally_tmp_none _ _

/-- C6: for every Precise-backend invocation that gets past tool lookup and
returns — success, non-zero exit, missing output, timeout, launch error,
and remove/move failure — the built command directs the tool's output to
the temporary path (which differs from the destination whenever the
`mkstemp` path is fresh), and the temporary file no longer exists when the
function returns: on success because the move consumed it, otherwise
because the `finally:` block deleted it. The non-returning path (temp-file
creation itself raising, C5's correction) is excluded by the `.ok`
pattern. -/
theorem ghostscript_temp_scoped_cleanup (env : GsEnv) (fs : FS) (i o : String)
    (q : Quality) (gp : String) (hgp : gp ≠ "") (hfound : fs.exists? gp = true) :
    ∀ r fsOut, compress_with_ghostscript_py env fs i o q (some gp) = .ok (r, fsOut) →
      fsOut env.tmpPath = none ∧
      ("-sOutputFile=" ++ env.tmpPath) ∈ ghostscriptCmd gp q env.tmpPath i ∧
      (env.tmpPath ≠ o →
        ("-sOutputFile=" ++ env.tmpPath) ≠ ("-sOutputFile=" ++ o)) := by
  intro r fsOut h
  unfold compress_with_ghostscript_py at h
  dsimp only at h
  rw [if_pos] at h
  · rcases hmk : env.mkstemp with _ | ⟨m, fileCreated⟩
    · rw [hmk] at h
      injection h with h'
      exact ⟨gs_run_cleanup env fs i o q r fsOut h',
        outputFlag_in_cmd gp q env.tmpPath i,
        fun hne => outputFlag_ne env.tmpPath o hne⟩
    · rw [hmk] at h
      cases h
  · refine ⟨?_, by simpa using hfound⟩
    simp [strTruthy, hgp]

/-- Witness for C6: at the concrete failing-Ghostscript world of the C1
witness, the call returns, the temporary file is gone, and the output flag
names the temp path, which differs from the destination's flag. -/
theorem ghostscript_temp_scoped_cleanup_witness :
    (compress_with_ghostscript autoEnvW.gsEnv fsW "in.pdf" "out.pdf" .balanced
        (some "gs")).2 "tmp.pdf" = none ∧
    ("-sOutputFile=" ++ "tmp.pdf") ≠ ("-sOutputFile=" ++ "out.pdf") := by
  obtain ⟨h1, _, h3⟩ := ghostscript_temp_scoped_cleanup autoEnvW.gsEnv fsW
    "in.pdf" "out.pdf" .balanced "gs" (by decide) (by decide) _ _ rfl
  exact ⟨h1, h3 (by decide)⟩

/-- Concrete environment refuting the non-emptiness half of C3: the tool
"succeeds" (exit code 0) but leaves the `mkstemp`-created temporary file at
zero bytes, and the move publishes that empty file. -/
def gsEnvEmptyOutW : GsEnv :=
  GsEnv.mk (some "gs") "tmp.pdf" MkstempOutcome.ok (ProcOutcome.completed 0 "" "")
    (some 0) MoveOutcome.ok

/-- Counterexample to C3 as stated: a Precise-backend run returning
`ok = true` whose output file exists but is empty (size 0), so
`ok = true` does not imply the output file is non-empty. -/
theorem ok_without_nonempty_output_counterexample :
    (compress_with_ghostscript gsEnvEmptyOutW fsW "in.pdf" "out.pdf" .balanced
        (some "gs")).1.ok = true ∧
    (compress_with_ghostscript gsEnvEmptyOutW fsW "in.pdf" "out.pdf" .balanced
        (some "gs")).2 "out.pdf" = some 0 := by
  exact ⟨by decide, by decide⟩

/-- Helper for C3: the run stage publishes a file at the destination
whenever it reports success. -/
lemma gs_run_ok_exists (env : GsEnv) (fs : FS) (i o : String) (q : Quality)
    (hne : env.tmpPath ≠ o) :
    ∀ r fsOut, gs_run env fs i o q = (r, fsOut) → r.ok = true →
      (fsOut o).isSome = true := by
  intro r fsOut h hok
  unfold gs_run at h
  have hother : ∀ f : FS, gsFinally env f o = f o :=
    fun f => gsFinally_other env f o (Ne.symm hne)
  obtain ⟨loc, tmp, mk, outcome, tmpAfter, mv⟩ := env
  cases outcome with
  | launchError m =>
    cases h
    cases hok
  | timedOut =>
    cases h
    cases hok
  | completed rc out err =>
    dsimp only at h
    split at h
    · cases mv with
      | ok =>
        cases h
        rw [hother]
        simp [FS.set]
      | removeFail m =>
        cases h
        cases hok
      | moveFail m partialOut =>
        cases h
        cases hok
    · cases h
      cases hok

lemma gs_ok_exists (env : GsEnv) (fs : FS) (i o : String) (q : Quality)
    (gp : Option String) (hne : env.tmpPath ≠ o) :
    ∀ r fsOut, compress_with_ghostscript env fs i o q gp = (r, fsOut) → r.ok = true →
      (fsOut o).isSome = true := by
  intro r fsOut h hok
  unfold compress_with_ghostscript at h
  rcases gp with _ | p <;> dsimp only at h <;> split at h
  · exact gs_run_ok_exists env fs i o q hne r fsOut h hok
  · cases h
    cases hok
  · exact gs_run_ok_exists env fs i o q hne r fsOut h hok
  · cases h
    cases hok

lemma pike_ok_exists (env : PikeEnv) (fs : FS) (i o : String) (q : Quality) :
    ∀ r fsOut ops, compress_with_pikepdf env fs i o q = (r, fsOut, ops) → r.ok = true →
      (fsOut o).isSome = true := by
  intro r fsOut ops h hok
  unfold compress_with_pikepdf at h
  obtain ⟨outcome⟩ := env
  cases outcome with
  | importError m => cases h; cases hok
  | openError m => cases h; cases hok
  | saveError m => cases h; cases hok
  | saved written =>
    rcases written with _ | sz <;> dsimp only at h <;> split at h <;>
      rename_i hex <;> cases h
    · simpa [FS.exists?] using hex
    · cases hok
    · simpa [FS.exists?] using hex
    · cases hok

lemma auto_ok_exists (env : AutoEnv) (fs : FS) (i o : String) (q : Quality)
    (hne : env.gsEnv.tmpPath ≠ o) :
    ∀ r fsOut tr, auto_compress env fs i o q = (r, fsOut, tr) → r.ok = true →
      (fsOut o).isSome = true := by
  intro r fsOut tr h hok
  unfold auto_compress at h
  by_cases hloc : strTruthy env.located = true
  · rw [if_pos hloc] at h
    dsimp only at h
    by_cases hgok : (compress_with_ghostscript env.gsEnv fs i o q env.located).1.ok = true
    · rw [if_pos hgok] at h
      cases h
      exact gs_ok_exists env.gsEnv fs i o q env.located hne _ _ rfl hgok
    · rw [if_neg hgok] at h
      cases h
      exact pike_ok_exists env.pikeEnv
        (compress_with_ghostscript env.gsEnv fs i o q env.located).2 i o q _ _ _ rfl hok
  · rw [if_neg hloc] at h
    cases h
    exact pike_ok_exists env.pikeEnv fs i o q _ _ _ rfl hok

/-- The auto selector's result also records the job's paths. -/
lemma auto_result_fields (env : AutoEnv) (fs : FS) (i o : String) (q : Quality) :
    ∀ r fsOut tr, auto_compress env fs i o q = (r, fsOut, tr) →
      r.input_path = i ∧ r.output_path = o := by
  intro r fsOut tr h
  unfold auto_compress at h
  by_cases hloc : strTruthy env.located = true
  · rw [if_pos hloc] at h
    dsimp only at h
    by_cases hgok : (compress_with_ghostscript env.gsEnv fs i o q env.located).1.ok = true
    · rw [if_pos hgok] at h
      cases h
      have hc := gs_fields env.gsEnv fs i o q env.located
      exact ⟨hc.2.1, hc.2.2.1⟩
    · rw [if_neg hgok] at h
      cases h
      have hc := pike_fields env.pikeEnv
        (compress_with_ghostscript env.gsEnv fs i o q env.located).2 i o q
      exact ⟨hc.2.1, hc.2.2.1⟩
  · rw [if_neg hloc] at h
    cases h
    have hc := pike_fields env.pikeEnv fs i o q
    exact ⟨hc.2.1, hc.2.2.1⟩

/-- C3 (amended): for every compression operation — Precise backend, Basic
backend, or auto — whenever the returned result has `ok = true`, the result
records the requested output path and a file exists at that path. (The
original claim also asserted non-emptiness, refuted by
`ok_without_nonempty_output_counterexample`.) -/
theorem ok_implies_output_file_exists (genv : GsEnv) (penv : PikeEnv) (aenv : AutoEnv)
    (fs : FS) (i o : String) (q : Quality) (gp : Option String)
    (hg : genv.tmpPath ≠ o) (ha : aenv.gsEnv.tmpPath ≠ o) :
    (∀ r fsOut, compress_with_ghostscript genv fs i o q gp = (r, fsOut) →
       r.ok = true → r.output_path = o ∧ (fsOut o).isSome = true) ∧
    (∀ r fsOut ops, compress_with_pikepdf penv fs i o q = (r, fsOut, ops) →
       r.ok = true → r.output_path = o ∧ (fsOut o).isSome = true) ∧
    (∀ r fsOut tr, auto_compress aenv fs i o q = (r, fsOut, tr) →
       r.ok = true → r.output_path = o ∧ (fsOut o).isSome = true) := by
  refine ⟨fun r fsOut h hok => ⟨?_, gs_ok_exists genv fs i o q gp hg r fsOut h hok⟩,
    fun r fsOut ops h hok => ⟨?_, pike_ok_exists penv fs i o q r fsOut ops h hok⟩,
    fun r fsOut tr h hok => ⟨?_, auto_ok_exists aenv fs i o q ha r fsOut tr h hok⟩⟩
  · exact (gs_result_contract genv fs i o q gp r fsOut h).2.2.1
  · exact (pike_result_contract penv fs i o q r fsOut ops h).2.2.1
  · rcases (auto_result_fields aenv fs i o q r fsOut tr h) with ⟨_, hout⟩
    exact hout

/-- Witness for C3: at a successful concrete Ghostscript world, `ok = true`
and the output file exists. -/
theorem ok_implies_output_file_exists_witness :
    ((compress_with_ghostscript gsEnvEmptyOutW fsW "in.pdf" "out.pdf" .balanced
        (some "gs")).2 "out.pdf").isSome = true :=
  ((ok_implies_output_file_exists gsEnvEmptyOutW (PikeEnv.mk (PikeOutcome.saved (some 5)))
      autoEnvW fsW "in.pdf" "out.pdf" .balanced (some "gs") (by decide) (by decide)).1
    _ _ rfl (by decide)).2

/-- Concrete environment for the C7 counterexample: tool absent, release
URL found, the download fails after `mkstemp` created the temporary
installer file (`shutil.copyfileobj` raises mid-copy). -/
def installEnvMidFailW : InstallEnv :=
  InstallEnv.mk none (some "http://u/gs10040w64.exe")
    (DownloadOutcome.midFail "gs-setup-1.exe") false 0 0 none

/-- Counterexample to C7 as stated: a network failure in the middle of the
download makes `ensure_ghostscript_installed` return absence, but the
partially downloaded installer file is NOT deleted — `_download_to_temp`
swallows the exception and loses the temp path, which the `finally:`
cleanup in `ensure_ghostscript_installed` never sees. -/
theorem installer_partial_download_leftover :
    ensure_ghostscript_installed installEnvMidFailW true =
      (none, [.fetchReleaseInfo, .downloadAsset], ["gs-setup-1.exe"]) := by
  decide

/-- C7 (amended): `ensure_ghostscript_installed` returns the located path
immediately with no network, download or installer step when the locator
finds the tool; returns absence when the tool is absent and `auto_install`
is false; and on every network, filesystem, or process-launch failure of
the installation it returns absence rather than raising. The downloaded
installer file is deleted (even on failure) once the download has
completed; a failure in the middle of the download itself leaves the
partial temporary file behind
(`installer_partial_download_leftover`). -/
theorem ensure_installed_contract (env : InstallEnv) (auto_install : Bool) :
    (strTruthy env.locate1 = true →
      ensure_ghostscript_installed env auto_install = (env.locate1, [], [])) ∧
    (strTruthy env.locate1 = false → auto_install = false →
      ensure_ghostscript_installed env auto_install = (none, [], [])) ∧
    (strTruthy env.locate1 = false → auto_install = true →
      (strTruthy env.fetchUrl = false →
        ensure_ghostscript_installed env true = (none, [.fetchReleaseInfo], [])) ∧
      (∀ url, env.fetchUrl = some url → url ≠ "" →
        (env.download = .openFail →
          ensure_ghostscript_installed env true =
            (none, [.fetchReleaseInfo, .downloadAsset], [])) ∧
        (∀ t, env.download = .midFail t →
          ensure_ghostscript_installed env true =
            (none, [.fetchReleaseInfo, .downloadAsset], [t])) ∧
        (∀ t, env.download = .ok t → run_installer env = false →
          ensure_ghostscript_installed env true =
            (none, [.fetchReleaseInfo, .downloadAsset, .runInstaller], [])) ∧
        (∀ t, env.download = .ok t → run_installer env = true →
          ensure_ghostscript_installed env true =
            (env.locate2, [.fetchReleaseInfo, .downloadAsset, .runInstaller], [])))) := by
  refine ⟨?_, ?_, ?_⟩
  · intro h1
    unfold ensure_ghostscript_installed
    rw [if_pos h1]
  · intro h1 h2
    subst h2
    unfold ensure_ghostscript_installed
    rw [if_neg (by simp [h1])]
    simp
  · intro h1 _
    obtain ⟨l1, fu, dl, rr, rs, rt, l2⟩ := env
    constructor
    · intro hurl
      unfold ensure_ghostscript_installed
      rw [if_neg (by simp [h1])]
      cases fu with
      | none => simp
      | some url =>
        have hempty : url = "" := by simpa [strTruthy] using hurl
        subst hempty
        simp
    · intro url hfu hne
      cases hfu
      unfold ensure_ghostscript_installed
      rw [if_neg (by simp [h1])]
      refine ⟨fun hdl => ?_, fun t hdl => ?_,
        fun t hdl hrun => ?_, fun t hdl hrun => ?_⟩
      · cases hdl
        simp [hne]
      · cases hdl
        simp [hne]
      · cases hdl
        simp [hne, hrun]
      · cases hdl
        simp [hne, hrun]

/-- Environment for the C7 witness: the locator already finds the tool. -/
def installEnvFoundW : InstallEnv :=
  InstallEnv.mk (some "gs") none DownloadOutcome.openFail false 0 0 none

/-- Witness for C7 (amended): with the tool already installed, the path is
returned with no installation activity and no leftover file. -/
theorem ensure_installed_contract_witness :
    ensure_ghostscript_installed installEnvFoundW false = (some "gs", [], []) :=
  (ensure_installed_contract installEnvFoundW false).1 (by decide)

/-- C8: with an `--input` argument, the CLI exits 0 when every requested
file succeeded, 1 when no valid input was found — a folder with no PDF
files, or a single-file path that does not exist or does not end in `.pdf`,
in which case no compression is attempted (empty attempt list) — and 2 when
one or more files failed. -/
theorem cli_exit_code_spec (w : CliWorld) (in_path : String) :
    (w.isDir = true →
      (cliPdfs w in_path = [] → run_cli w in_path = (1, [])) ∧
      ((∀ p ∈ cliPdfs w in_path, w.compOk p = true) → cliPdfs w in_path ≠ [] →
        run_cli w in_path = (0, cliPdfs w in_path)) ∧
      ((∃ p ∈ cliPdfs w in_path, w.compOk p = false) →
        run_cli w in_path = (2, cliPdfs w in_path))) ∧
    (w.isDir = false →
      ((strEndsWith (lowerStr in_path) ".pdf" = false ∨ w.pathExists = false) →
        run_cli w in_path = (1, [])) ∧
      (strEndsWith (lowerStr in_path) ".pdf" = true → w.pathExists = true →
        (w.compOk in_path = true → run_cli w in_path = (0, [in_path])) ∧
        (w.compOk in_path = false → run_cli w in_path = (2, [in_path])))) := by
  constructor
  · intro hdir
    refine ⟨fun hempty => ?_, fun hall hne => ?_, fun hex => ?_⟩
    · simp [run_cli, hdir, hempty]
    · have hallb : (cliPdfs w in_path).all w.compOk = true := List.all_eq_true.mpr hall
      simp [run_cli, hdir, hne, hallb]
    · obtain ⟨p, hp, hfail⟩ := hex
      have hne : cliPdfs w in_path ≠ [] := by
        intro hcon
        rw [hcon] at hp
        cases hp
      have hallb : (cliPdfs w in_path).all w.compOk = false := by
        rw [List.all_eq_false]
        exact ⟨p, hp, by simp [hfail]⟩
      simp [run_cli, hdir, hne, hallb]
  · intro hdir
    constructor
    · intro hbad
      rcases hbad with hb | hb <;> simp [run_cli, hdir, hb]
    · intro hpdf hex
      refine ⟨fun hok => ?_, fun hfail => ?_⟩
      · simp [run_cli, hdir, hpdf, hex, hok]
      · simp [run_cli, hdir, hpdf, hex, hfail]

/-- World for the C8 witness: a folder holding `x.pdf`, `y.pdf` and
`notes.txt`, where compression succeeds only on `x.pdf`. -/
def cliW : CliWorld :=
  CliWorld.mk true true ["x.pdf", "y.pdf", "notes.txt"] (fun _ => true)
    (fun p => p == "/in/x.pdf")

/-- Witness for C8: the folder run processes exactly the two PDFs and exits
with code 2 because one of them fails. -/
theorem cli_exit_code_spec_witness :
    run_cli cliW "/in" = (2, cliPdfs cliW "/in") :=
  ((cli_exit_code_spec cliW "/in").1 (by decide)).2.2
    ⟨"/in/y.pdf", by decide, by decide⟩

/-- C4: the Output Path Resolver targets the explicit output directory when
given (and non-empty) and otherwise the source file's own directory,
proposes `<stem>-compressed.pdf`, returns it unchanged when no file exists
there, and otherwise returns the first candidate
`<stem>-compressed (k).pdf`, k = 1, 2, ... not existing on disk. The
hypotheses pin down the `os.path` decompositions (`dirname`, `splitext`)
at the call; the witness discharges them on concrete paths. -/
theorem output_path_resolver_spec (fs : List String) (src : String)
    (outDir : Option String) (t s : String)
    (ht : (outDir = none ∧ t = dirnameStr src) ∨ (∃ d, outDir = some d ∧ d ≠ "" ∧ t = d))
    (hstem : (splitextStr (basenameStr src)).1 = s)
    (hsplit : splitextStr (joinPath t (s ++ "-compressed.pdf")) =
      (joinPath t (s ++ "-compressed"), ".pdf")) :
    (joinPath t (s ++ "-compressed.pdf") ∉ fs →
      default_output_path_for fs src outDir = joinPath t (s ++ "-compressed.pdf")) ∧
    (joinPath t (s ++ "-compressed.pdf") ∈ fs →
      ∃ k, 1 ≤ k ∧
        default_output_path_for fs src outDir =
          joinPath t (s ++ "-compressed") ++ " (" ++ Nat.repr k ++ ")" ++ ".pdf" ∧
        joinPath t (s ++ "-compressed") ++ " (" ++ Nat.repr k ++ ")" ++ ".pdf" ∉ fs ∧
        ∀ j, 1 ≤ j → j < k →
          joinPath t (s ++ "-compressed") ++ " (" ++ Nat.repr j ++ ")" ++ ".pdf" ∈ fs) := by
  have hbase : default_output_path_for fs src outDir =
      ensure_unique_output_path fs (joinPath t (s ++ "-compressed.pdf")) := by
    unfold default_output_path_for
    rcases ht with ⟨h1, h2⟩ | ⟨d, h1, h2, h3⟩
    · subst h1
      dsimp only
      rw [hstem, ← h2]
    · subst h1
      subst h3
      dsimp only
      rw [hstem, if_neg h2]
  constructor
  · intro hfree
    rw [hbase]
    exact (ensure_unique_spec fs _).1 hfree
  · intro hmem
    obtain ⟨k, hk1, hk2, hk3, hk4⟩ := (ensure_unique_spec fs _).2 hmem
    rw [hsplit] at hk2 hk3 hk4
    simp only [candidateName] at hk2 hk3 hk4
    exact ⟨k, hk1, by rw [hbase]; exact hk2, hk3, hk4⟩

/-- Filesystem for the C4 and C10 witnesses: the base candidate and its
first suffixed variant already exist. -/
def fs2W : List String := ["D/a-compressed.pdf", "D/a-compressed (1).pdf"]

/-- Witness for C4: resolving `D/a.pdf` with no explicit output directory
when `D/a-compressed.pdf` and `D/a-compressed (1).pdf` exist yields the
first free counted candidate. -/
theorem output_path_resolver_spec_witness :
    ∃ k, 1 ≤ k ∧
      default_output_path_for fs2W "D/a.pdf" none =
        joinPath "D" ("a" ++ "-compressed") ++ " (" ++ Nat.repr k ++ ")" ++ ".pdf" ∧
      joinPath "D" ("a" ++ "-compressed") ++ " (" ++ Nat.repr k ++ ")" ++ ".pdf" ∉ fs2W ∧
      ∀ j, 1 ≤ j → j < k →
        joinPath "D" ("a" ++ "-compressed") ++ " (" ++ Nat.repr j ++ ")" ++ ".pdf" ∈ fs2W :=
  (output_path_resolver_spec fs2W "D/a.pdf" none "D" "a"
    (Or.inl ⟨rfl, by decide⟩) (by decide) (by decide)).2 (by decide)

/-- C10: over any finite filesystem, the counting loop of
`ensure_unique_output_path` terminates — the fuelled embedding with fuel
`fs.length + 1` provably reaches a free suffix index `k ≤ fs.length + 1`,
so the unbounded Python loop stops — and the returned path does not exist
on disk at the time of the check. -/
theorem ensure_unique_output_path_terminates (fs : List String) (base : String) :
    ensure_unique_output_path fs base ∉ fs ∧
    (base ∈ fs → ∃ k, 1 ≤ k ∧ k ≤ fs.length + 1 ∧
      ensure_unique_output_path fs base =
        candidateName (splitextStr base).1 (splitextStr base).2 k ∧
      candidateName (splitextStr base).1 (splitextStr base).2 k ∉ fs) := by
  refine ⟨ensure_unique_not_mem fs base, fun hmem => ?_⟩
  obtain ⟨k, hk1, hk2, hk3, hk4⟩ := (ensure_unique_spec fs base).2 hmem
  obtain ⟨k0, h01, h02, h03⟩ :=
    exists_free_candidate fs (splitextStr base).1 (splitextStr base).2
  have hkk : k ≤ k0 := by
    by_contra hgt
    push_neg at hgt
    exact h03 (hk4 k0 h01 hgt)
  exact ⟨k, hk1, by omega, hk2, hk3⟩

/-- Witness for C10: the loop terminates on the concrete two-file
filesystem, returning a free candidate with index at most 3. -/
theorem ensure_unique_output_path_terminates_witness :
    ∃ k, 1 ≤ k ∧ k ≤ fs2W.length + 1 ∧
      ensure_unique_output_path fs2W "D/a-compressed.pdf" =
        candidateName (splitextStr "D/a-compressed.pdf").1
          (splitextStr "D/a-compressed.pdf").2 k ∧
      candidateName (splitextStr "D/a-compressed.pdf").1
          (splitextStr "D/a-compressed.pdf").2 k ∉ fs2W :=
  (ensure_unique_output_path_terminates fs2W "D/a-compressed.pdf").2 (by decide)

end PdfKompressor
